import Mathlib

/-!
Verification of the LLM code-tester harness (`app.py`) against its
natural-language specification.

The embedding models, faithfully to the source:
* `extract_python_code`  — markdown code-fence extraction (app.py 79-100),
  over a model of Python's `str.find`, slicing and `str.strip`;
* `execute_code_safely`  — isolated execution and first-callable selection
  (app.py 102-123), over an explicit model of the exec'd namespace;
* `generate_and_test_code` — the generate/execute/retry loop (app.py 125-160),
  with the completion service mocked as a queue of optional responses;
* `process_single_problem`, `process_json_file` and helpers — record
  validation and file-format dispatch (app.py 170-241), with observable
  behaviour modelled as a list of events.

Model restrictions (stated where relevant): JSON numbers are modelled as
integers; Python `str.strip` is modelled on the six ASCII whitespace
characters; `repr` of strings does not model escape sequences.
-/

/-- JSON values, as produced by `json.load` (numbers restricted to integers). -/
inductive JValue where
  | null
  | bool (b : Bool)
  | num (n : Int)
  | str (s : String)
  | arr (xs : List JValue)
  | obj (fields : List (String × JValue))

mutual

/-- Python `repr` of the runtime value a `JValue` parses to
(`None`/`True`/`False`, quoted strings; string escapes not modelled). -/
def pyRepr : JValue → String
  | .null => "None"
  | .bool b => if b then "True" else "False"
  | .num n => toString n
  | .str s => "\x27" ++ s ++ "\x27"
  | .arr xs => "[" ++ pyReprList xs ++ "]"
  | .obj fs => "\x7b" ++ pyReprFields fs ++ "\x7d"

/-- Comma-separated `repr`s of list elements. -/
def pyReprList : List JValue → String
  | [] => ""
  | [x] => pyRepr x
  | x :: xs => pyRepr x ++ ", " ++ pyReprList xs

/-- Comma-separated `repr`s of dict items. -/
def pyReprFields : List (String × JValue) → String
  | [] => ""
  | [(k, v)] => "\x27" ++ k ++ "\x27: " ++ pyRepr v
  | (k, v) :: xs => "\x27" ++ k ++ "\x27: " ++ pyRepr v ++ ", " ++ pyReprFields xs

end

/-- Python `str` of the runtime value a `JValue` parses to: a string is
itself, everything else prints as its `repr`. -/
def pyStr (v : JValue) : String :=
  match v with
  | .str s => s
  | v => pyRepr v

/-- Python truthiness of the runtime value a `JValue` parses to. -/
def pyTruthy : JValue → Bool
  | .null => false
  | .bool b => b
  | .num n => n != 0
  | .str s => s != ""
  | .arr xs => !xs.isEmpty
  | .obj fs => !fs.isEmpty

/-- Whether `needle` occurs in `hay` starting exactly at index `i`. -/
def matchesAt (hay needle : List Char) (i : Nat) : Bool :=
  (hay.drop i).take needle.length == needle

/-- Python `hay.find(needle, start)`: index of the first occurrence of
`needle` at or after `start`, `none` standing for Python's `-1`. -/
def pyFindL (hay needle : List Char) (start : Nat) : Option Nat :=
  ((List.range (hay.length + 1)).filter
    (fun i => decide (start ≤ i) && matchesAt hay needle i)).head?

/-- Python `hay.find(needle, start)` on strings. -/
def pyFind (hay needle : String) (start : Nat) : Option Nat :=
  pyFindL hay.toList needle.toList start

/-- Python slice `s[a:b]` (for `0 ≤ a ≤ b`, as used by the extractor). -/
def pySlice (s : String) (a b : Nat) : String :=
  String.mk ((s.toList.drop a).take (b - a))

/-- ASCII whitespace stripped by Python `str.strip()`
(space, tab, newline, carriage return, vertical tab, form feed). -/
def isPySpace (c : Char) : Bool :=
  c == ' ' || c == '\t' || c == '\n' || c == '\r' ||
  c == Char.ofNat 11 || c == Char.ofNat 12

/-- Python `s.strip()` (restricted to ASCII whitespace). -/
def pyStrip (s : String) : String :=
  String.mk (((s.toList.dropWhile isPySpace).reverse.dropWhile isPySpace).reverse)

/-- `LLMCodeTester.extract_python_code` (app.py 79-100): take the trimmed
content of the first closed ```python fence, else of the first closed plain
fence, else the whole trimmed response; empty response yields empty code. -/
def extract_python_code (llm_response : String) : String :=
  if llm_response = "" then ""
  else
    let tagged :=
      match pyFind llm_response "```python" 0 with
      | some i =>
        let start := i + 9
        match pyFind llm_response "```" start with
        | some e => some (pyStrip (pySlice llm_response start e))
        | none => none
      | none => none
    match tagged with
    | some r => r
    | none =>
      match pyFind llm_response "```" 0 with
      | some i =>
        let start := i + 3
        match pyFind llm_response "```" start with
        | some e => pyStrip (pySlice llm_response start e)
        | none => pyStrip llm_response
      | none => pyStrip llm_response

/-- A binding introduced into the execution namespace by `exec`: either a
callable (modelled by its behaviour: the value returned, or the `str` of the
exception raised) or a non-callable object. -/
inductive PyBinding where
  | callable (f : JValue → Except String JValue)
  | notCallable

/-- Outcome of `exec(code, namespace)`: the namespace's bindings in
definition order, or the `str` of the exception raised while
loading/compiling (`exec` inserts `__builtins__`, a non-callable, first). -/
inductive ExecOutcome where
  | ok (ns : List (String × PyBinding))
  | exn (msg : String)

/-- Whether a binding is `callable`. -/
def isCallableB : PyBinding → Bool
  | .callable _ => true
  | .notCallable => false

/-- Python `name.startswith('__')`: the first two characters are
underscores. -/
def isDunder (name : String) : Bool :=
  name.toList.take 2 == ['_', '_']

/-- The selection loop of app.py 108-113: first binding in definition order
that is callable and whose name does not start with a double underscore. -/
def find_target_function : List (String × PyBinding) → Option (JValue → Except String JValue)
  | [] => none
  | (name, b) :: rest =>
    match b with
    | .callable f =>
      if isDunder name then find_target_function rest else some f
    | .notCallable => find_target_function rest

/-- Calling the selected callable (app.py 118-123): on return, yield
`(str(result), None)`; on an exception, yield `(None, str(e))`. -/
def applyCall (f : JValue → Except String JValue) (input : JValue) :
    Option String × Option String :=
  match f input with
  | .ok v => (some (pyStr v), none)
  | .error m => (none, some m)

/-- `LLMCodeTester.execute_code_safely` (app.py 102-123), over the outcome of
`exec` on the generated code: returns the pair `(result, error)` exactly as
the source does. -/
def execute_code_safely (execed : ExecOutcome) (test_input : JValue) :
    Option String × Option String :=
  match execed with
  | .exn m => (none, some m)
  | .ok ns =>
    match find_target_function ns with
    | none => (none, some "No callable function found in generated code")
    | some f => applyCall f test_input

/-- Exec semantics of the empty code string `""`: `exec("", ns)` succeeds and
introduces only the non-callable `__builtins__` binding. -/
def emptyCodeExec : ExecOutcome :=
  .ok [("__builtins__", .notCallable)]

/-- Exec semantics of `"def f(x):\n  raise ValueError('boom')"`: compilation
succeeds, the namespace holds `__builtins__` and the callable `f`, and
calling `f` with any input raises `ValueError('boom')`, whose `str` is
`"boom"`. -/
def boomCodeExec : ExecOutcome :=
  .ok [("__builtins__", .notCallable), ("f", .callable (fun _ => .error "boom"))]

/-- `INITIAL_PROMPT_TEMPLATE.format(query=query)` (app.py 19-24). -/
def INITIAL_PROMPT_TEMPLATE (query : String) : String :=
  query ++
  "\n\nWrite a Python function that solves this problem. Your function should be errorproof and syntactically correct. \nReturn ONLY the function code, nothing else. \nThe function should accept one parameter and return a string result. \nBe sure to avoid any extra text beyond the relevant python code in your response."

/-- `RETRY_PROMPT_TEMPLATE.format(query=query, error=error, previous_code=previous_code)`
(app.py 26-34). -/
def RETRY_PROMPT_TEMPLATE (query error previous_code : String) : String :=
  query ++
  "\n\nThe previous code failed with this error: " ++ error ++
  "\n\nPrevious code was:\n" ++ previous_code ++
  "\n\nWrite a corrected Python function. Return ONLY the function code, nothing else.\nThe function should accept one parameter and return a string result."

/-- The configured retry budget (app.py 13). -/
def MAX_RETRIES : Nat := 1

/-- Python truthiness of the optional error string returned by
`execute_code_safely` (`if error:`): `None` and `""` are falsy. -/
def errTruthy : Option String → Bool
  | some s => s != ""
  | none => false

/-- The mocked completion service: a queue of outcomes, one per call
(`none` models `call_ollama_api` returning `None` on timeout or transport
error). Popping an exhausted queue also yields `none`. -/
def popLLM : List (Option String) → Option String × List (Option String)
  | [] => (none, [])
  | r :: rest => (r, rest)

/-- Result of `generate_and_test_code`: the triple the source returns,
plus the prompts sent (in order, one per completion call) and the part of
the mocked response queue left unconsumed. -/
structure GenOut where
  code : Option String
  result : Option String
  error : Option String
  prompts : List String
  rest : List (Option String)

/-- `LLMCodeTester.generate_and_test_code` (app.py 125-160), parameterised by
`sem`, the exec semantics of code strings, the retry budget `maxRetries`
(the source reads the constant `MAX_RETRIES`), and the mocked response
queue `llm`. -/
def generate_and_test_code (sem : String → ExecOutcome) (maxRetries : Nat)
    (llm : List (Option String)) (query : String) (test_input : JValue) : GenOut :=
  let p1 := INITIAL_PROMPT_TEMPLATE query
  let (r1, llm1) := popLLM llm
  match r1 with
  | none => ⟨none, none, some "Failed to get response from LLM", [p1], llm1⟩
  | some resp1 =>
    let code1 := extract_python_code resp1
    let (result, error) := execute_code_safely (sem code1) test_input
    if errTruthy error && decide (0 < maxRetries) then
      let p2 := RETRY_PROMPT_TEMPLATE query (error.getD "") code1
      let (r2, llm2) := popLLM llm1
      match r2 with
      | none =>
        ⟨some code1, none, some "Failed to get response from LLM on retry", [p1, p2], llm2⟩
      | some resp2 =>
        let code2 := extract_python_code resp2
        let (result2, error2) := execute_code_safely (sem code2) test_input
        ⟨some code2, result2, error2, [p1, p2], llm2⟩
    else
      ⟨some code1, result, error, [p1], llm1⟩

/-- The final classification printed per test case. -/
inductive Verdict where
  | passed
  | failedMismatch (actual : Option String) (expected : JValue)
  | failedNoExecution (error : String)

/-- `_print_test_results` (app.py 201-212) as a classification: a truthy
error means no execution; otherwise the actual output is compared against
`str(expected_output)`. -/
def test_verdict (actual : Option String) (expected : JValue)
    (error : Option String) : Verdict :=
  if errTruthy error then .failedNoExecution (error.getD "")
  else if actual = some (pyStr expected) then .passed
  else .failedMismatch actual expected

/-- Observable per-record behaviour of the suite runner: an "Invalid problem
data" report, a test case actually evaluated (with its final classification),
or a file-level processing error. -/
inductive Event where
  | invalid (name : String)
  | tested (name : String) (v : Verdict)
  | fileError (name : String)

/-- `problem_data.get(key)` on a parsed JSON object, composed with
`json.load`'s `null → None` mapping: a missing key and a present-but-`null`
value are both Python `None`, hence both `none` here. -/
def getPy (fields : List (String × JValue)) (k : String) : Option JValue :=
  match (fields.find? (fun p => p.1 == k)).map (fun p => p.2) with
  | some JValue.null => none
  | o => o

/-- Truthiness of an optional Python value (`None` is falsy). -/
def optTruthy : Option JValue → Bool
  | some v => pyTruthy v
  | none => false

/-- The validation of app.py 177:
`all([query, test_input is not None, expected_output is not None])`. -/
def valid_problem_data (fields : List (String × JValue)) : Bool :=
  optTruthy (getPy fields "query") &&
  (getPy fields "test_input").isSome &&
  (getPy fields "test_output").isSome

/-- `LLMCodeTester.process_single_problem` (app.py 170-188): validate the
record, and either report it invalid or run the generate-and-test loop and
classify the outcome. Returns the events emitted and the unconsumed part of
the mocked response queue. -/
def process_single_problem (sem : String → ExecOutcome) (maxRetries : Nat)
    (llm : List (Option String)) (problem_name : String)
    (fields : List (String × JValue)) : List Event × List (Option String) :=
  let query := getPy fields "query"
  let test_input := getPy fields "test_input"
  let expected_output := getPy fields "test_output"
  if !valid_problem_data fields then
    ([.invalid problem_name], llm)
  else
    let g := generate_and_test_code sem maxRetries llm
      (pyStr (query.getD JValue.null)) (test_input.getD JValue.null)
    ([.tested problem_name (test_verdict g.result (expected_output.getD JValue.null) g.error)],
      g.rest)

/-- `LLMCodeTester._process_multiple_problems` (app.py 237-241): process each
entry whose value is a dict; every other entry is passed over with no event. -/
def process_multiple_problems (sem : String → ExecOutcome) (maxRetries : Nat)
    (llm : List (Option String)) (fields : List (String × JValue)) :
    List Event × List (Option String) :=
  match fields with
  | [] => ([], llm)
  | (k, v) :: rest =>
    match v with
    | .obj sub =>
      let (evs, llm1) := process_single_problem sem maxRetries llm k sub
      let (evs2, llm2) := process_multiple_problems sem maxRetries llm1 rest
      (evs ++ evs2, llm2)
    | _ => process_multiple_problems sem maxRetries llm rest

/-- `LLMCodeTester._is_single_problem_format` (app.py 232-235):
`{"query","test_input","test_output"} ⊆ data.keys()`. -/
def is_single_problem_format (fields : List (String × JValue)) : Bool :=
  ["query", "test_input", "test_output"].all
    (fun k => fields.any (fun p => p.1 == k))

/-- `LLMCodeTester.process_json_file` (app.py 214-241) after a successful
`json.load`, on the parsed top-level value: dispatch on the detected format;
a non-object top level raises inside `_is_single_problem_format` and is
caught as a file-level error. -/
def process_json_data (sem : String → ExecOutcome) (maxRetries : Nat)
    (llm : List (Option String)) (file_name : String) (data : JValue) :
    List Event × List (Option String) :=
  match data with
  | .obj fields =>
    if is_single_problem_format fields then
      process_single_problem sem maxRetries llm file_name fields
    else
      process_multiple_problems sem maxRetries llm fields
  | _ => ([.fileError file_name], llm)

/-- Whether a parsed JSON object has an entry for key `k`
(`k in data.keys()`). -/
def hasKey (fields : List (String × JValue)) (k : String) : Bool :=
  fields.any (fun p => p.1 == k)

/-- Whether a `JValue` is a JSON object (`isinstance(value, dict)`). -/
def isObjB : JValue → Bool
  | .obj _ => true
  | _ => false

/-- Exec semantics in which every code string fails to load
(used to instantiate theorems at concrete inputs). -/
def semExn : String → ExecOutcome :=
  fun _ => .exn ""

/-- Exec semantics in which every code string defines one callable `f`
that returns the string `"wrong"` on every input. -/
def semMismatch : String → ExecOutcome :=
  fun _ => .ok [("f", .callable (fun _ => .ok (.str "wrong")))]

/-- Exec semantics in which every code string behaves like the
`ValueError('boom')`-raising function. -/
def semBoom : String → ExecOutcome :=
  fun _ => boomCodeExec

/-- C4: `SafeInvoker.invoke` never propagates an exception to its caller:
for every code and input the outcome is either a stringified result with no
error or an error message with no result, and for the code
`"def f(x):\n  raise ValueError('boom')"` it is `Error{"boom"}` for every
input. -/
theorem C4_invoke_never_raises :
    (∀ (execed : ExecOutcome) (input : JValue),
        (∃ m, execute_code_safely execed input = (none, some m)) ∨
        (∃ s, execute_code_safely execed input = (some s, none))) ∧
    (∀ input : JValue,
        execute_code_safely boomCodeExec input = (none, some "boom")) := by
  constructor
  · intro execed input
    cases execed with
    | exn m => exact .inl ⟨m, rfl⟩
    | ok ns =>
      cases hf : find_target_function ns with
      | none =>
        exact .inl ⟨"No callable function found in generated code",
          by simp only [execute_code_safely, hf]⟩
      | some f =>
        cases hc : f input with
        | ok v =>
          exact .inr ⟨pyStr v, by simp only [execute_code_safely, hf, applyCall, hc]⟩
        | error m =>
          exact .inl ⟨m, by simp only [execute_code_safely, hf, applyCall, hc]⟩
  · intro input
    rfl

/-- C8: when the completion service does not return a response on the first
attempt, the evaluator returns `FailedNoExecution{"Failed to get response
from LLM"}` at once: one prompt sent, the rest of the response queue
untouched, for every retry budget. -/
theorem C8_first_call_failure_is_terminal (sem : String → ExecOutcome)
    (maxRetries : Nat) (rest : List (Option String)) (query : String)
    (input : JValue) :
    generate_and_test_code sem maxRetries (none :: rest) query input =
      ⟨none, none, some "Failed to get response from LLM",
        [INITIAL_PROMPT_TEMPLATE query], rest⟩ ∧
    ∀ expected : JValue,
      test_verdict none expected (some "Failed to get response from LLM") =
        .failedNoExecution "Failed to get response from LLM" := by
  exact ⟨rfl, fun expected => rfl⟩

/-- C9: invoking the empty extracted-code string is an ordinary invocation
failure: extraction of an empty response is empty, and invoking the empty
code returns `Error{"No callable function found in generated code"}` for
every input. -/
theorem C9_empty_code_ordinary_failure :
    extract_python_code "" = "" ∧
    ∀ input : JValue,
      execute_code_safely emptyCodeExec input =
        (none, some "No callable function found in generated code") := by
  exact ⟨rfl, fun input => rfl⟩

/-- The selection loop passes over every binding that is not callable or
whose name is dunder-style. -/
theorem find_target_function_skips (pre tail : List (String × PyBinding))
    (hpre : ∀ p ∈ pre, isCallableB p.2 = false ∨ isDunder p.1 = true) :
    find_target_function (pre ++ tail) = find_target_function tail := by
  induction pre with
  | nil => rfl
  | cons p pre ih =>
    obtain ⟨n, b⟩ := p
    have hp := hpre (n, b) (List.mem_cons_self _ _)
    have hrest : ∀ q ∈ pre, isCallableB q.2 = false ∨ isDunder q.1 = true :=
      fun q hq => hpre q (List.mem_cons_of_mem _ hq)
    cases b with
    | notCallable =>
      simpa only [List.cons_append, find_target_function] using ih hrest
    | callable f =>
      rcases hp with hp | hp
      · simp [isCallableB] at hp
      · simpa only [List.cons_append, find_target_function, hp, if_true] using ih hrest

/-- C6: `SafeInvoker` selects the first callable, non-dunder-named binding in
definition order: after any prefix of non-callable or dunder-named bindings,
code defining `g` then `f` invokes `g` on the test input, regardless of what
`f` does. -/
theorem C6_first_callable_selected
    (pre : List (String × PyBinding))
    (hpre : ∀ p ∈ pre, isCallableB p.2 = false ∨ isDunder p.1 = true)
    (gi fi : JValue → Except String JValue)
    (post : List (String × PyBinding)) (input : JValue) :
    execute_code_safely
      (.ok (pre ++ ("g", .callable gi) :: ("f", .callable fi) :: post)) input =
      applyCall gi input := by
  have hfind :=
    find_target_function_skips pre
      (("g", PyBinding.callable gi) :: ("f", PyBinding.callable fi) :: post) hpre
  simp only [execute_code_safely, hfind, find_target_function, isDunder]
  rfl

/-- C6 witness: with the usual `__builtins__` binding first, the callable `g`
is the one invoked, not `f`. -/
theorem C6_witness :
    (∀ p ∈ [(("__builtins__" : String), PyBinding.notCallable)],
        isCallableB p.2 = false ∨ isDunder p.1 = true) ∧
    execute_code_safely
      (.ok ([("__builtins__", PyBinding.notCallable)] ++
        ("g", PyBinding.callable (fun v => .ok v)) ::
        ("f", PyBinding.callable (fun _ => .ok (.str "other"))) :: []))
      (.num 7) =
      applyCall (fun v => .ok v) (.num 7) :=
  ⟨by decide, C6_first_callable_selected _ (by decide) _ _ _ _⟩

/-- C7: when a fence opens but never closes, extraction falls through each
fence rule and returns the whole trimmed response. -/
theorem C7_unterminated_fence_falls_through
    (r : String) (i j : Nat) (hne : r ≠ "")
    (hpy : pyFind r "```python" 0 = some i)
    (hpyend : pyFind r "```" (i + 9) = none)
    (hf : pyFind r "```" 0 = some j)
    (hfend : pyFind r "```" (j + 3) = none) :
    extract_python_code r = pyStrip r := by
  unfold extract_python_code
  rw [if_neg hne]
  simp only [hpy, hpyend, hf, hfend]

/-- C7 witness: the unterminated-fence input from the spec extracts to the
trimmed full input, which here is the input itself. -/
theorem C7_witness :
    extract_python_code "```python\ndef f(x): return x" =
      pyStrip "```python\ndef f(x): return x" ∧
    pyStrip "```python\ndef f(x): return x" = "```python\ndef f(x): return x" :=
  ⟨C7_unterminated_fence_falls_through "```python\ndef f(x): return x" 0 0
      (by decide) (by decide) (by decide) (by decide) (by decide),
    by decide⟩

/-- C1: with retry budget 1, a first invocation that succeeds (no execution
error) but whose stringified result differs from the stringified expected
output yields `FailedMismatch` immediately: exactly one prompt is sent, the
remaining response queue is untouched, and the classification of the returned
result/error pair is a mismatch. -/
theorem C1_mismatch_consumes_no_retry
    (sem : String → ExecOutcome) (resp : String) (rest : List (Option String))
    (query : String) (input expected : JValue) (r : String)
    (hexec : execute_code_safely (sem (extract_python_code resp)) input =
      (some r, none))
    (hne : r ≠ pyStr expected) :
    generate_and_test_code sem 1 (some resp :: rest) query input =
      ⟨some (extract_python_code resp), some r, none,
        [INITIAL_PROMPT_TEMPLATE query], rest⟩ ∧
    test_verdict (some r) expected none = .failedMismatch (some r) expected := by
  constructor
  · unfold generate_and_test_code
    simp only [popLLM, hexec]
    rfl
  · unfold test_verdict
    rw [if_neg (by simp [errTruthy])]
    rw [if_neg (fun h => hne (Option.some.inj h))]

/-- C1 witness: a concrete mismatching run makes one completion call and is
classified as a mismatch. -/
theorem C1_witness :
    execute_code_safely (semMismatch (extract_python_code "resp")) (.num 1) =
      (some "wrong", none) ∧
    ("wrong" : String) ≠ pyStr (JValue.str "right") ∧
    (generate_and_test_code semMismatch 1 [some "resp"] "q" (.num 1) =
      ⟨some (extract_python_code "resp"), some "wrong", none,
        [INITIAL_PROMPT_TEMPLATE "q"], []⟩ ∧
    test_verdict (some "wrong") (JValue.str "right") none =
      .failedMismatch (some "wrong") (JValue.str "right")) :=
  ⟨rfl, by decide,
    C1_mismatch_consumes_no_retry semMismatch "resp" [] "q" (.num 1)
      (JValue.str "right") "wrong" rfl (by decide)⟩

/-- C3 counterexample: with retry budget 1, a successful first invocation
whose result mismatches the expected output does not transition to Attempt2:
only the initial prompt is sent, the second mocked response stays unconsumed,
and the verdict is a mismatch, with no retry prompt carrying
"output mismatch". -/
theorem C3_counterexample :
    (generate_and_test_code semMismatch 1 [some "a", some "b"] "q" (.num 1)).prompts =
      [INITIAL_PROMPT_TEMPLATE "q"] ∧
    (generate_and_test_code semMismatch 1 [some "a", some "b"] "q" (.num 1)).rest =
      [some "b"] ∧
    test_verdict
      (generate_and_test_code semMismatch 1 [some "a", some "b"] "q" (.num 1)).result
      (JValue.str "right")
      (generate_and_test_code semMismatch 1 [some "a", some "b"] "q" (.num 1)).error =
      .failedMismatch (some "wrong") (JValue.str "right") :=
  ⟨rfl, rfl, rfl⟩

/-- C3 (amended): with retry budget greater than 0, it is a first invocation
that fails with a truthy execution error that transitions the evaluator to
Attempt2, carrying the previous code together with that error message (not
"output mismatch") into the retry prompt. -/
theorem C3_error_transitions_to_attempt2
    (sem : String → ExecOutcome) (resp : String) (rest : List (Option String))
    (query : String) (input : JValue) (e : String)
    (hexec : execute_code_safely (sem (extract_python_code resp)) input =
      (none, some e))
    (he : e ≠ "") :
    (generate_and_test_code sem 1 (some resp :: rest) query input).prompts =
      [INITIAL_PROMPT_TEMPLATE query,
        RETRY_PROMPT_TEMPLATE query e (extract_python_code resp)] := by
  have ht : errTruthy (some e) = true := by simp [errTruthy, he]
  unfold generate_and_test_code
  simp only [popLLM, hexec, ht]
  cases rest with
  | nil => rfl
  | cons a rest => cases a <;> rfl

/-- C3 witness: a concrete failing run sends the retry prompt carrying the
previous code and the error message. -/
theorem C3_witness :
    execute_code_safely (semBoom (extract_python_code "a")) (.num 1) =
      (none, some "boom") ∧
    ("boom" : String) ≠ "" ∧
    (generate_and_test_code semBoom 1 [some "a", some "b"] "q" (.num 1)).prompts =
      [INITIAL_PROMPT_TEMPLATE "q",
        RETRY_PROMPT_TEMPLATE "q" "boom" (extract_python_code "a")] :=
  ⟨rfl, by decide,
    C3_error_transitions_to_attempt2 semBoom "a" [some "b"] "q" (.num 1) "boom"
      rfl (by decide)⟩

/-- A key absent from a record yields Python `None` under `get`. -/
theorem getPy_eq_none_of_missing (fields : List (String × JValue)) (k : String)
    (h : hasKey fields k = false) : getPy fields k = none := by
  unfold getPy
  have hfind : fields.find? (fun p => p.1 == k) = none := by
    rw [List.find?_eq_none]
    intro x hx hxk
    have hany : fields.any (fun p => p.1 == k) = true :=
      List.any_eq_true.mpr ⟨x, hx, hxk⟩
    rw [hasKey] at h
    rw [h] at hany
    exact Bool.noConfusion hany
  rw [hfind]
  rfl

/-- A record missing one of the three required keys fails the validation of
app.py 177. -/
theorem valid_problem_data_eq_false_of_missing (fields : List (String × JValue))
    (h : hasKey fields "query" = false ∨ hasKey fields "test_input" = false ∨
      hasKey fields "test_output" = false) :
    valid_problem_data fields = false := by
  unfold valid_problem_data
  rcases h with h | h | h <;>
    rw [getPy_eq_none_of_missing _ _ h] <;> simp [optTruthy]

/-- C2 (amended): every object-valued entry of a multi-problem mapping that
is missing a required key is reported with an "Invalid problem data" error
and skipped — it consumes no completion responses, and the batch continues
with the remaining entries. (A file whose top level is a single record
missing a key is instead dispatched as a multi-problem mapping, where its
non-object entries are dropped without a report; see the counterexample.) -/
theorem C2_invalid_dict_record_reported
    (sem : String → ExecOutcome) (mr : Nat) (llm : List (Option String))
    (name : String) (sub tail_fields : List (String × JValue))
    (hmiss : hasKey sub "query" = false ∨ hasKey sub "test_input" = false ∨
      hasKey sub "test_output" = false) :
    process_multiple_problems sem mr llm ((name, .obj sub) :: tail_fields) =
      (Event.invalid name :: (process_multiple_problems sem mr llm tail_fields).1,
        (process_multiple_problems sem mr llm tail_fields).2) := by
  have hval := valid_problem_data_eq_false_of_missing sub hmiss
  have hsingle : process_single_problem sem mr llm name sub =
      ([.invalid name], llm) := by
    unfold process_single_problem
    rw [hval]
    rfl
  simp only [process_multiple_problems, hsingle]
  rfl

/-- C2 counterexample: a file whose top-level object is a single record
missing `test_output` produces no events at all — the invalid record is
dropped silently, not reported. -/
theorem C2_counterexample :
    process_json_data semExn 1 [] "incomplete"
      (.obj [("query", .str "q"), ("test_input", .num 5)]) = ([], []) := rfl

/-- C2 witness: a dict entry missing `test_output` inside a multi-problem
mapping is reported and skipped. -/
theorem C2_witness :
    hasKey [(("query" : String), JValue.str "q"), ("test_input", JValue.num 5)]
      "test_output" = false ∧
    process_multiple_problems semExn 1 []
      [("p1", .obj [("query", JValue.str "q"), ("test_input", JValue.num 5)])] =
      (Event.invalid "p1" :: (process_multiple_problems semExn 1 [] []).1,
        (process_multiple_problems semExn 1 [] []).2) :=
  ⟨by decide,
    C2_invalid_dict_record_reported semExn 1 [] "p1" _ []
      (Or.inr (Or.inr (by decide)))⟩

/-- C5 (amended): a record is accepted and evaluated when its `query` is
truthy and its `test_input` and `test_output` are present and not JSON
`null` (`false` and `0` are accepted); the comparison target is the string
form of `test_output`. A record whose `test_input` or `test_output` is
`null` is indistinguishable from a missing key and is rejected. -/
theorem C5_nonnull_record_evaluated
    (sem : String → ExecOutcome) (mr : Nat) (llm : List (Option String))
    (name : String) (fields : List (String × JValue)) (q tin tout : JValue)
    (hq : getPy fields "query" = some q) (htq : pyTruthy q = true)
    (hi : getPy fields "test_input" = some tin)
    (ho : getPy fields "test_output" = some tout) :
    process_single_problem sem mr llm name fields =
      ([Event.tested name
          (test_verdict (generate_and_test_code sem mr llm (pyStr q) tin).result
            tout (generate_and_test_code sem mr llm (pyStr q) tin).error)],
        (generate_and_test_code sem mr llm (pyStr q) tin).rest) := by
  have hval : valid_problem_data fields = true := by
    unfold valid_problem_data
    rw [hq, hi, ho]
    simp [optTruthy, htq]
  unfold process_single_problem
  rw [hq, hi, ho, hval]
  rfl

/-- C5 counterexample: a record with all three keys present but a `null`
`test_input` is not evaluated — it is reported as invalid problem data, even
though the single-problem format check accepts it. -/
theorem C5_counterexample :
    is_single_problem_format
      [("query", JValue.str "q"), ("test_input", JValue.null),
        ("test_output", JValue.str "1")] = true ∧
    process_single_problem semExn 1 [] "p"
      [("query", JValue.str "q"), ("test_input", JValue.null),
        ("test_output", JValue.str "1")] = ([Event.invalid "p"], []) :=
  ⟨rfl, rfl⟩

/-- C5 witness: a record whose `test_input` is `false` and whose
`test_output` is `0` is accepted and evaluated. -/
theorem C5_witness :
    getPy [(("query" : String), JValue.str "q"), ("test_input", JValue.bool false),
        ("test_output", JValue.num 0)] "query" = some (JValue.str "q") ∧
    pyTruthy (JValue.str "q") = true ∧
    getPy [(("query" : String), JValue.str "q"), ("test_input", JValue.bool false),
        ("test_output", JValue.num 0)] "test_input" = some (JValue.bool false) ∧
    getPy [(("query" : String), JValue.str "q"), ("test_input", JValue.bool false),
        ("test_output", JValue.num 0)] "test_output" = some (JValue.num 0) ∧
    process_single_problem semExn 1 [some "x"] "p"
      [("query", JValue.str "q"), ("test_input", JValue.bool false),
        ("test_output", JValue.num 0)] =
      ([Event.tested "p"
          (test_verdict
            (generate_and_test_code semExn 1 [some "x"]
              (pyStr (JValue.str "q")) (JValue.bool false)).result
            (JValue.num 0)
            (generate_and_test_code semExn 1 [some "x"]
              (pyStr (JValue.str "q")) (JValue.bool false)).error)],
        (generate_and_test_code semExn 1 [some "x"]
          (pyStr (JValue.str "q")) (JValue.bool false)).rest) :=
  ⟨rfl, rfl, rfl, rfl,
    C5_nonnull_record_evaluated semExn 1 [some "x"] "p" _ _ _ _ rfl rfl rfl rfl⟩

/-- Multi-problem processing passes over non-object entries without any
event or response consumption: it agrees with processing only the
object-valued entries. -/
theorem process_multiple_skips_non_objects (sem : String → ExecOutcome)
    (mr : Nat) (fields : List (String × JValue)) (llm : List (Option String)) :
    process_multiple_problems sem mr llm fields =
      process_multiple_problems sem mr llm
        (fields.filter (fun p => isObjB p.2)) := by
  induction fields generalizing llm with
  | nil => rfl
  | cons p fields ih =>
    obtain ⟨k, v⟩ := p
    cases v with
    | obj sub =>
      have hf : ((k, JValue.obj sub) :: fields).filter (fun p => isObjB p.2) =
          (k, JValue.obj sub) :: fields.filter (fun p => isObjB p.2) := by
        simp [List.filter_cons, isObjB]
      rw [hf]
      simp only [process_multiple_problems]
      rw [ih]
    | null => simpa [List.filter_cons, isObjB, process_multiple_problems] using ih llm
    | bool b => simpa [List.filter_cons, isObjB, process_multiple_problems] using ih llm
    | num n => simpa [List.filter_cons, isObjB, process_multiple_problems] using ih llm
    | str s => simpa [List.filter_cons, isObjB, process_multiple_problems] using ih llm
    | arr xs => simpa [List.filter_cons, isObjB, process_multiple_problems] using ih llm

/-- C10: a JSON file whose top-level object lacks one of the required keys is
dispatched as a multi-problem mapping, and there only the object-valued
entries are evaluated: every non-object entry is skipped with no event, and
processing continues. -/
theorem C10_missing_key_treated_as_multi
    (sem : String → ExecOutcome) (mr : Nat) (llm : List (Option String))
    (file_name : String) (fields : List (String × JValue))
    (hmiss : hasKey fields "query" = false ∨ hasKey fields "test_input" = false ∨
      hasKey fields "test_output" = false) :
    process_json_data sem mr llm file_name (.obj fields) =
      process_multiple_problems sem mr llm fields ∧
    process_multiple_problems sem mr llm fields =
      process_multiple_problems sem mr llm
        (fields.filter (fun p => isObjB p.2)) := by
  have hsingle : is_single_problem_format fields = false := by
    cases hb : is_single_problem_format fields with
    | false => rfl
    | true =>
      exfalso
      have hall := List.all_eq_true.mp hb
      rcases hmiss with h | h | h
      · have h2 := hall "query" (by simp)
        simp only [hasKey] at h
        rw [h] at h2
        exact Bool.noConfusion h2
      · have h2 := hall "test_input" (by simp)
        simp only [hasKey] at h
        rw [h] at h2
        exact Bool.noConfusion h2
      · have h2 := hall "test_output" (by simp)
        simp only [hasKey] at h
        rw [h] at h2
        exact Bool.noConfusion h2
  constructor
  · simp only [process_json_data]
    rw [hsingle]
    rfl
  · exact process_multiple_skips_non_objects sem mr fields llm

/-- C10 witness: a top-level object with neither required keys nor
object-valued entries is processed as a (here empty) multi-problem batch. -/
theorem C10_witness :
    hasKey [(("a" : String), JValue.num 1), ("b", JValue.str "s")] "query" = false ∧
    (process_json_data semExn 1 [] "f"
        (.obj [("a", JValue.num 1), ("b", JValue.str "s")]) =
      process_multiple_problems semExn 1 [] [("a", JValue.num 1), ("b", JValue.str "s")] ∧
    process_multiple_problems semExn 1 [] [("a", JValue.num 1), ("b", JValue.str "s")] =
      process_multiple_problems semExn 1 []
        ([("a", JValue.num 1), ("b", JValue.str "s")].filter (fun p => isObjB p.2))) :=
  ⟨by decide,
    C10_missing_key_treated_as_multi semExn 1 [] "f" _ (Or.inl (by decide))⟩
